import Mathlib

/-!
# BrAMon (Browser Activity Monitor) — verification of the request-lifecycle
correlator, domain filter, record store, backup ring and export pipeline.

Shallow embedding of the `BrowserActivityMonitor` class from the background
script (src/unnamed/part_001).  JavaScript objects whose field sets grow over
the three lifecycle phases are embedded as Lean structures with `Option`
fields for the parts that may be absent; the `x || d` JavaScript idiom is
embedded by explicit `jsOr*` helpers; `chrome.storage.local` keyed storage is
an association list with set/get/remove; IndexedDB `network_requests` is an
append-only list; the localStorage backup is a plain list trimmed to 1000.

Simplifications (documented where they occur):
* `new URL(...)` is embedded by `parseURL`, a simplified WHATWG parser for
  absolute `scheme://host[:port][/path][?q][#f]` URLs (no userinfo, no IPv6
  brackets, no percent/dot-segment normalization, no default-port stripping —
  none of which affect the derivations the claims are about).
* `JSON.stringify` over header arrays is embedded by a direct serializer
  without escape handling inside header names/values.
* `calculateChecksum` (SHA-256 via crypto.subtle) is unreachable in the
  source because `getResponseBody` always returns `null`; the digest function
  is therefore left abstract (constant).
-/

set_option maxRecDepth 100000

/-- `x || d` for JavaScript strings: the empty string is falsy. -/
def jsOrStr (s d : String) : String := if s = "" then d else s

/-- `x || d` for JavaScript numbers: `0` is falsy. -/
def jsOrInt (n d : Int) : Int := if n = 0 then d else n

/-- `x || d` for a possibly-absent JavaScript number: `undefined` and `0` are falsy. -/
def jsNumOr (o : Option Int) (d : Int) : Int :=
  match o with
  | some n => if n = 0 then d else n
  | none => d

/-- ASCII lowercasing of one character (JavaScript `toLowerCase` restricted
to the ASCII range, which covers everything the source compares). -/
def lowerChar (c : Char) : Char :=
  if 65 ≤ c.toNat ∧ c.toNat ≤ 90 then Char.ofNat (c.toNat + 32) else c

/-- `s.toLowerCase()` (ASCII). -/
def lowerStr (s : String) : String := ⟨s.data.map lowerChar⟩

/-- `split` on a one-character separator, as a structural recursion over the
character list (same semantics as JavaScript `split` with a one-character
separator: always at least one piece, empty pieces kept). -/
def splitOnChar (sep : Char) : List Char → List (List Char)
  | [] => [[]]
  | c :: cs =>
    match splitOnChar sep cs with
    | [] => [[]]
    | h :: t => if c = sep then [] :: h :: t else (c :: h) :: t

/-- The numeric value of a list of decimal digit characters. -/
def digitsToNat (ds : List Char) : Nat := ds.foldl (fun n c => n * 10 + (c.toNat - 48)) 0

/-- Remove the first occurrence of a character (JavaScript
`replace(c, '')` with a plain one-character pattern). -/
def removeFirst (t : Char) : List Char → List Char
  | [] => []
  | c :: cs => if c = t then cs else c :: removeFirst t cs

/-- `new Set(l).size`: the number of distinct elements, by folding Set
insertion over the list. -/
def jsSetSize (l : List String) : Nat :=
  (l.foldl (fun acc x => if acc.contains x then acc else acc ++ [x]) []).length

/-- JavaScript `parseInt` restricted to its use here (decimal): trims
leading whitespace, accepts an optional sign, then a digit prefix; `none`
models NaN. -/
def parseIntJS (s : String) : Option Int :=
  let t := s.data.dropWhile Char.isWhitespace
  let sign : Int := match t with | '-' :: _ => -1 | _ => 1
  let digits := match t with | '-' :: r => r | '+' :: r => r | _ => t
  let ds := digits.takeWhile Char.isDigit
  if ds.isEmpty then none else some (sign * (digitsToNat ds : Int))

/-- One entry of a webRequest header array: a `{name, value}` object. -/
structure Header where
  name : String
  value : String
deriving DecidableEq, Repr

/-- The predicate of `headers.find(h => h && h.name && h.name.toLowerCase() === name.toLowerCase())`:
the entry must be non-null (`some`), have a truthy (non-empty) name, and match
case-insensitively.  `nameLower` is the already-lowercased needle. -/
def headerMatches (nameLower : String) : Option Header → Bool
  | some h => h.name != "" && lowerStr h.name == nameLower
  | none => false

/-- `getHeaderValue(headers, name)` from the source: case-insensitive lookup,
empty string when absent. -/
def getHeaderValue (headers : List (Option Header)) (name : String) : String :=
  match headers.find? (headerMatches (lowerStr name)) with
  | some (some h) => h.value
  | some none => ""
  | none => ""

/-- The relevant fields of a parsed `URL` object (`protocol` keeps the
trailing colon, exactly as in the URL API; `port` is `""` when no port was
written). -/
structure URLObj where
  protocol : String
  hostname : String
  port : String
  pathname : String
deriving DecidableEq, Repr

/-- Characters allowed in a URL scheme after the leading letter. -/
def isSchemeChar (c : Char) : Bool := c.isAlphanum || c == '+' || c == '-' || c == '.'

/-- Simplified embedding of `new URL(url)` for absolute URLs (see the header
comment for the simplifications).  `none` models the constructor throwing. -/
def parseURL (url : String) : Option URLObj :=
  let scheme := url.data.takeWhile (fun c => c != ':')
  let rest := url.data.dropWhile (fun c => c != ':')
  match scheme, rest with
  | c₀ :: sc, ':' :: '/' :: '/' :: remainder =>
    if c₀.isAlpha && (c₀ :: sc).all isSchemeChar then
      let authority := remainder.takeWhile (fun c => !(c == '/' || c == '?' || c == '#'))
      let afterAuth := remainder.dropWhile (fun c => !(c == '/' || c == '?' || c == '#'))
      let pathname : String :=
        match afterAuth with
        | '/' :: _ => ⟨afterAuth.takeWhile (fun c => !(c == '?' || c == '#'))⟩
        | _ => "/"
      match splitOnChar ':' authority with
      | [host] =>
        if host.isEmpty then none
        else some ⟨⟨(c₀ :: sc).map lowerChar⟩ ++ ":", ⟨host.map lowerChar⟩, "", pathname⟩
      | [host, port] =>
        if host.isEmpty then none
        else if port.all Char.isDigit && decide (digitsToNat port ≤ 65535) then
          some ⟨⟨(c₀ :: sc).map lowerChar⟩ ++ ":", ⟨host.map lowerChar⟩, ⟨port⟩, pathname⟩
        else none
      | _ => none
    else none
  | _, _ => none

/-- `extractProtocol(url)`: `new URL(url).protocol.replace(':', '')`, with the
sentinel `"unknown"` when parsing throws. -/
def extractProtocol (url : String) : String :=
  match parseURL url with
  | some u => ⟨removeFirst ':' u.protocol.data⟩
  | none => "unknown"

/-- `extractPort(url)`: the explicit port when the port string is truthy, else
443 for https / 80 otherwise; `null` (`none`) when parsing throws. -/
def extractPort (url : String) : Option Int :=
  match parseURL url with
  | some u =>
    some (if u.port ≠ "" then (parseIntJS u.port).getD 0
          else if u.protocol = "https:" then 443 else 80)
  | none => none

/-- `extractFilename(url)`: `pathname.split('/').pop() || ''`, empty string
when parsing throws. -/
def extractFilename (url : String) : String :=
  match parseURL url with
  | some u => jsOrStr ⟨(splitOnChar '/' u.pathname.data).getLastD []⟩ ""
  | none => ""

/-- `extractDomain(url)`: `new URL(url).hostname`, sentinel `"unknown"` when
parsing throws. -/
def extractDomain (url : String) : String :=
  match parseURL url with
  | some u => u.hostname
  | none => "unknown"

/-- Naive JSON quoting for `JSON.stringify` over header arrays (escape
handling inside names/values is not modelled; no claim depends on it). -/
def jsonQuote (s : String) : String := "\x22" ++ s ++ "\x22"

/-- `JSON.stringify` of one header-array entry (`null` entries print as `null`). -/
def stringifyHeader : Option Header → String
  | some h => "\x7b\x22name\x22:" ++ jsonQuote h.name ++ ",\x22value\x22:" ++ jsonQuote h.value ++ "\x7d"
  | none => "null"

/-- `JSON.stringify(headers)` for a webRequest header array. -/
def stringifyHeaders (hs : List (Option Header)) : String :=
  "[" ++ String.intercalate "," (hs.map stringifyHeader) ++ "]"

/-- The response-side bundle written by `handleResponse` (phase 2).  The
source always writes all nine fields at once, so in a pending record they are
either all present or all absent. -/
structure ResponseData where
  response_code : Int
  response_message : String
  content_type : String
  content_length : Int
  server : String
  date : String
  location : String
  vary : String
  response_headers : String
deriving DecidableEq, Repr

/-- The transient per-request object held under `req_<requestId>` in
`chrome.storage.local`: the phase-1 fields plus the optional phase-2 bundle. -/
structure PendingRecord where
  method : String
  protocol : String
  port : Option Int
  url : String
  filename : String
  domain : String
  tab_id : Int
  window_id : Option Int
  request_headers : String
  timestamp : String
  resp : Option ResponseData
deriving DecidableEq, Repr

/-- A finalized record, exactly the 26-key object literal built by
`storeCompleteRequest` (the autoincremented `id` key is added by IndexedDB
and not part of the stored literal).  Phase-2-derived fields are `none`
(JavaScript `undefined`) when no phase-2 event arrived. -/
structure CompleteRecord where
  method : String
  protocol : String
  port : Option Int
  url : String
  filename : String
  domain : String
  user_agent : String
  referer : String
  origin : String
  cookie : String
  vary : Option String
  x_forwarded_for : String
  content_type : Option String
  response_code : Option Int
  response_message : Option String
  date : Option String
  server : Option String
  content_length : Option Int
  location : Option String
  response_preview : Option String
  response_checksum : Option String
  tab_id : Int
  window_id : Option Int
  request_headers : String
  response_headers : Option String
  timestamp : String
deriving DecidableEq, Repr

/-- `existingData.push(data)` followed by the `splice(0, length - 1000)` trim
of `saveToLocalStorageBackup`: append, then evict from the front down to the
fixed capacity 1000. -/
def saveToLocalStorageBackup (backup : List CompleteRecord) (data : CompleteRecord) :
    List CompleteRecord :=
  let grown := backup ++ [data]
  if grown.length > 1000 then grown.drop (grown.length - 1000) else grown

/-- `chrome.storage.local.set({key: v})`: replace the value under `key`, or
append the binding if the key is new. -/
def setKV (l : List (String × PendingRecord)) (k : String) (v : PendingRecord) :
    List (String × PendingRecord) :=
  match l with
  | [] => [(k, v)]
  | (k₀, v₀) :: rest => if k₀ = k then (k, v) :: rest else (k₀, v₀) :: setKV rest k v

/-- `chrome.storage.local.remove([key])`. -/
def removeKV (l : List (String × PendingRecord)) (k : String) :
    List (String × PendingRecord) :=
  l.filter (fun p => p.1 != k)

/-- The whole mutable state of the monitor: the boolean gate, the
domain-filter set, the transient `req_*` store, the IndexedDB
`network_requests` store (insertion order; ids are list positions), and the
localStorage backup ring. -/
structure MonitorState where
  isMonitoring : Bool
  disabledDomains : List String
  pending : List (String × PendingRecord)
  records : List CompleteRecord
  backup : List CompleteRecord
deriving DecidableEq, Repr

/-- The `requestData` object literal built by `handleRequest` (phase 1). -/
def mkRequestData (url method : String) (tabId frameId : Int) (wid : Option Int)
    (reqHeaders : List (Option Header)) (now : String) : PendingRecord :=
  { method := jsOrStr method "UNKNOWN"
    protocol := extractProtocol url
    port := extractPort url
    url := jsOrStr url ""
    filename := extractFilename url
    domain := extractDomain url
    tab_id := jsOrInt tabId (-1)
    window_id := if frameId = 0 then wid else none
    request_headers := stringifyHeaders reqHeaders
    timestamp := now
    resp := none }

/-- `handleRequest` (phase 1): gate check, domain-filter check, then store
the fresh request data under the correlation key.  `wid` is the value the
external `getWindowId` collaborator would return; `now` is the event arrival
time (`new Date().toISOString()`). -/
def handleRequest (requestId url method : String) (tabId frameId : Int) (wid : Option Int)
    (reqHeaders : List (Option Header)) (now : String) (s : MonitorState) : MonitorState :=
  if !s.isMonitoring then s
  else if s.disabledDomains.contains (extractDomain url) then s
  else { s with pending := setKV s.pending requestId
                  (mkRequestData url method tabId frameId wid reqHeaders now) }

/-- The `responseData` object literal built by `handleResponse` (phase 2). -/
def mkResponseData (statusCode : Option Int) (statusLine : String)
    (rhs : List (Option Header)) : ResponseData :=
  { response_code := jsNumOr statusCode 0
    response_message := jsOrStr statusLine ""
    content_type := getHeaderValue rhs "content-type"
    content_length := (parseIntJS (getHeaderValue rhs "content-length")).getD 0
    server := getHeaderValue rhs "server"
    date := getHeaderValue rhs "date"
    location := getHeaderValue rhs "location"
    vary := getHeaderValue rhs "vary"
    response_headers := stringifyHeaders rhs }

/-- `handleResponse` (phase 2): gate check, then `updateRequestData`, which
merges the response bundle into the pending record only when one exists. -/
def handleResponse (requestId : String) (statusCode : Option Int) (statusLine : String)
    (rhs : List (Option Header)) (s : MonitorState) : MonitorState :=
  if !s.isMonitoring then s
  else match List.lookup requestId s.pending with
    | some rd =>
      let updated := { rd with resp := some (mkResponseData statusCode statusLine rhs) }
      { s with pending := setKV s.pending requestId updated }
    | none => s

/-- `getResponseBody` from the source: it always returns `null`. -/
def getResponseBody (_requestId : String) : Option String := none

/-- SHA-256 hex digest over the body (`crypto.subtle.digest` in the source).
The digest function itself is left abstract (constant) because it is
unreachable: `getResponseBody` always returns `none`. -/
def calculateChecksum (_s : String) : String := ""

/-- The `completeData` object of `handleCompleted`: the pending record spread
together with the five request-header-derived fields, plus the optional
preview/checksum pair when a truthy body sample is available. -/
def mkCompleteData (rd : PendingRecord) (reqHeaders : List (Option Header))
    (body : Option String) : CompleteRecord :=
  { method := rd.method
    protocol := rd.protocol
    port := rd.port
    url := rd.url
    filename := rd.filename
    domain := rd.domain
    user_agent := getHeaderValue reqHeaders "user-agent"
    referer := getHeaderValue reqHeaders "referer"
    origin := getHeaderValue reqHeaders "origin"
    cookie := getHeaderValue reqHeaders "cookie"
    vary := rd.resp.map (fun r => r.vary)
    x_forwarded_for := getHeaderValue reqHeaders "x-forwarded-for"
    content_type := rd.resp.map (fun r => r.content_type)
    response_code := rd.resp.map (fun r => r.response_code)
    response_message := rd.resp.map (fun r => r.response_message)
    date := rd.resp.map (fun r => r.date)
    server := rd.resp.map (fun r => r.server)
    content_length := rd.resp.map (fun r => r.content_length)
    location := rd.resp.map (fun r => r.location)
    response_preview :=
      match body with
      | some b => if b ≠ "" then some ⟨b.data.take 16⟩ else none
      | none => none
    response_checksum :=
      match body with
      | some b => if b ≠ "" then some (calculateChecksum b) else none
      | none => none
    tab_id := rd.tab_id
    window_id := rd.window_id
    request_headers := rd.request_headers
    response_headers := rd.resp.map (fun r => r.response_headers)
    timestamp := rd.timestamp }

/-- `handleCompleted` (phase 3): gate check; when a pending record exists,
merge the final request-header fields and the (always-absent) body sample,
append the finalized record to the store and mirror it to the backup ring;
in every case remove the transient entry (`cleanupRequestData`). -/
def handleCompleted (requestId : String) (reqHeaders : List (Option Header))
    (s : MonitorState) : MonitorState :=
  if !s.isMonitoring then s
  else match List.lookup requestId s.pending with
    | some rd =>
      let cd := mkCompleteData rd reqHeaders (getResponseBody requestId)
      { s with records := s.records ++ [cd]
               backup := saveToLocalStorageBackup s.backup cd
               pending := removeKV s.pending requestId }
    | none => { s with pending := removeKV s.pending requestId }

/-- One inbound lifecycle event, carrying the correlation key
(`details.requestId`) and the field bag of the corresponding
webRequest `details` object. -/
inductive Event where
  | phase1 (requestId url method : String) (tabId frameId : Int) (wid : Option Int)
      (reqHeaders : List (Option Header)) (now : String)
  | phase2 (requestId : String) (statusCode : Option Int) (statusLine : String)
      (rhs : List (Option Header))
  | phase3 (requestId : String) (reqHeaders : List (Option Header))
deriving DecidableEq, Repr

/-- The correlation key of an event. -/
def Event.key : Event → String
  | .phase1 rid _ _ _ _ _ _ _ => rid
  | .phase2 rid _ _ _ => rid
  | .phase3 rid _ => rid

/-- Dispatch one event to its handler. -/
def step (s : MonitorState) (ev : Event) : MonitorState :=
  match ev with
  | .phase1 rid url method tabId frameId wid reqHeaders now =>
      handleRequest rid url method tabId frameId wid reqHeaders now s
  | .phase2 rid statusCode statusLine rhs => handleResponse rid statusCode statusLine rhs s
  | .phase3 rid reqHeaders => handleCompleted rid reqHeaders s

/-- Process a list of events in order. -/
def run (evs : List Event) (s : MonitorState) : MonitorState := evs.foldl step s

/-- For a phase-1 event: the domain derived from its URL is in the given
domain-filter set (so `handleRequest` rejects it); other phases trivially
`true`. -/
def Event.excludedAtB (ev : Event) (ds : List String) : Bool :=
  match ev with
  | .phase1 _ url _ _ _ _ _ _ => ds.contains (extractDomain url)
  | _ => true

/-- The summary object of `generateSummary`.  Count maps are association
lists in insertion order (JavaScript object keys); `status_codes` is keyed by
the possibly-absent response code (`undefined` becomes its own key in the
source, modelled as `none`). -/
structure Summary where
  total_requests : Nat
  unique_domains : Nat
  methods : List (String × Nat)
  status_codes : List (Option Int × Nat)
  content_types : List (String × Nat)
  protocols : List (String × Nat)
deriving DecidableEq, Repr

/-- `obj[k] = (obj[k] || 0) + 1`: increment in place, or append a fresh key
with count 1. -/
def bump {K : Type} [DecidableEq K] (l : List (K × Nat)) (k : K) : List (K × Nat) :=
  match l with
  | [] => [(k, 1)]
  | (k₀, n) :: rest => if k₀ = k then (k₀, n + 1) :: rest else (k₀, n) :: bump rest k

/-- The content-type grouping key of one record: `if (request.content_type)`
(truthy, so neither absent nor empty) then `content_type.split(';')[0]`. -/
def ctKey (r : CompleteRecord) : Option String :=
  match r.content_type with
  | some ct => if ct ≠ "" then some ⟨(splitOnChar ';' ct.data).headD ct.data⟩ else none
  | none => none

/-- The body of the `data.forEach(request => ...)` loop of `generateSummary`. -/
def summaryStep (s : Summary) (r : CompleteRecord) : Summary :=
  let s₁ := { s with methods := bump s.methods r.method }
  let s₂ := { s₁ with status_codes := bump s₁.status_codes r.response_code }
  let s₃ :=
    match ctKey r with
    | some t => { s₂ with content_types := bump s₂.content_types t }
    | none => s₂
  { s₃ with protocols := bump s₃.protocols r.protocol }

/-- `generateSummary(data)`: the length and the distinct-hostname count are
computed up front (`new Set(data.map(r => new URL(r.url).hostname
/* catch: 'unknown' */)).size`), then one pass over the data fills the four
count maps. -/
def generateSummary (data : List CompleteRecord) : Summary :=
  let init : Summary :=
    { total_requests := data.length
      unique_domains := jsSetSize (data.map (fun r => extractDomain r.url))
      methods := []
      status_codes := []
      content_types := []
      protocols := [] }
  data.foldl summaryStep init

/-- A JavaScript field value as the exports see it: a string, a number, or
absent (`undefined`/`null`). -/
inductive JSVal where
  | str (s : String)
  | num (n : Int)
  | absent
deriving DecidableEq, Repr

/-- JavaScript falsiness of a field value. -/
def jsFalsy : JSVal → Bool
  | .str s => s == ""
  | .num n => n == 0
  | .absent => true

/-- `${v || ''}`: the empty string for falsy values, the usual string
conversion otherwise. -/
def jsValOrEmpty (v : JSVal) : String :=
  match v with
  | .str s => s
  | .num n => if n = 0 then "" else toString n
  | .absent => ""

/-- `Object.keys` of a stored record: the 26 keys of the
`storeCompleteRequest` object literal, in declaration order. -/
def recordKeys : List String :=
  ["method", "protocol", "port", "url", "filename", "domain", "user_agent",
   "referer", "origin", "cookie", "vary", "x_forwarded_for", "content_type",
   "response_code", "response_message", "date", "server", "content_length",
   "location", "response_preview", "response_checksum", "tab_id", "window_id",
   "request_headers", "response_headers", "timestamp"]

/-- `row[header]` for a stored record: dynamic field access by key name;
unknown keys resolve to `undefined`. -/
def getField (r : CompleteRecord) (k : String) : JSVal :=
  if k = "method" then .str r.method
  else if k = "protocol" then .str r.protocol
  else if k = "port" then (r.port.map JSVal.num).getD .absent
  else if k = "url" then .str r.url
  else if k = "filename" then .str r.filename
  else if k = "domain" then .str r.domain
  else if k = "user_agent" then .str r.user_agent
  else if k = "referer" then .str r.referer
  else if k = "origin" then .str r.origin
  else if k = "cookie" then .str r.cookie
  else if k = "vary" then (r.vary.map JSVal.str).getD .absent
  else if k = "x_forwarded_for" then .str r.x_forwarded_for
  else if k = "content_type" then (r.content_type.map JSVal.str).getD .absent
  else if k = "response_code" then (r.response_code.map JSVal.num).getD .absent
  else if k = "response_message" then (r.response_message.map JSVal.str).getD .absent
  else if k = "date" then (r.date.map JSVal.str).getD .absent
  else if k = "server" then (r.server.map JSVal.str).getD .absent
  else if k = "content_length" then (r.content_length.map JSVal.num).getD .absent
  else if k = "location" then (r.location.map JSVal.str).getD .absent
  else if k = "response_preview" then (r.response_preview.map JSVal.str).getD .absent
  else if k = "response_checksum" then (r.response_checksum.map JSVal.str).getD .absent
  else if k = "tab_id" then .num r.tab_id
  else if k = "window_id" then (r.window_id.map JSVal.num).getD .absent
  else if k = "request_headers" then .str r.request_headers
  else if k = "response_headers" then (r.response_headers.map JSVal.str).getD .absent
  else if k = "timestamp" then .str r.timestamp
  else .absent

/-- One CSV cell: `"${row[header] || ''}"`. -/
def csvCell (v : JSVal) : String := "\x22" ++ jsValOrEmpty v ++ "\x22"

/-- One CSV data row: the cells for all header-row field names, joined by commas. -/
def csvRow (r : CompleteRecord) : String :=
  String.intercalate "," (recordKeys.map (fun h => csvCell (getField r h)))

/-- `convertToCSV(data)`: empty string for no data, else the header row
(`Object.keys(data[0])`, which for stored records is `recordKeys`) followed
by one row per record, joined by newlines. -/
def convertToCSV (data : List CompleteRecord) : String :=
  match data with
  | [] => ""
  | _ :: _ =>
    String.intercalate "\n" ((String.intercalate "," recordKeys) :: data.map csvRow)

/-- `${record.x || 'NULL'}` for a numeric column: absent and zero values are
falsy and print the NULL sentinel; anything else prints as a bare number. -/
def jsNumOrNull (o : Option Int) : String :=
  match o with
  | some n => if n = 0 then "NULL" else toString n
  | none => "NULL"

/-- `${record.tab_id || 'NULL'}` where the field is always a number. -/
def jsIntOrNull (n : Int) : String := if n = 0 then "NULL" else toString n

/-- The column (name, type) pairs of the CREATE TABLE statement, in source
order. -/
def sqlTableColumns : List (String × String) :=
  [("id", "INTEGER PRIMARY KEY AUTOINCREMENT"),
   ("timestamp", "TEXT"), ("method", "TEXT"), ("protocol", "TEXT"),
   ("port", "INTEGER"), ("url", "TEXT"), ("filename", "TEXT"),
   ("domain", "TEXT"), ("user_agent", "TEXT"), ("referer", "TEXT"),
   ("origin", "TEXT"), ("cookie", "TEXT"), ("vary", "TEXT"),
   ("x_forwarded_for", "TEXT"), ("content_type", "TEXT"),
   ("response_code", "INTEGER"), ("response_message", "TEXT"),
   ("date", "TEXT"), ("server", "TEXT"), ("content_length", "INTEGER"),
   ("location", "TEXT"), ("response_preview", "TEXT"),
   ("response_checksum", "TEXT"), ("tab_id", "INTEGER"),
   ("window_id", "INTEGER"), ("request_headers", "TEXT"),
   ("response_headers", "TEXT")]

/-- Assembles a CREATE TABLE statement with the template whitespace of the
source literal from a column list. -/
def mkCreateTableSQL (cols : List (String × String)) : String :=
  "\n      CREATE TABLE IF NOT EXISTS network_requests (\n        "
    ++ String.intercalate ",\n        " (cols.map (fun c => c.1 ++ " " ++ c.2))
    ++ "\n      );\n    "

/-- The `createTableSQL` template literal of `createSQLiteDatabase`, verbatim. -/
def createTableSQL : String :=
  "\n      CREATE TABLE IF NOT EXISTS network_requests (\n        id INTEGER PRIMARY KEY AUTOINCREMENT,\n        timestamp TEXT,\n        method TEXT,\n        protocol TEXT,\n        port INTEGER,\n        url TEXT,\n        filename TEXT,\n        domain TEXT,\n        user_agent TEXT,\n        referer TEXT,\n        origin TEXT,\n        cookie TEXT,\n        vary TEXT,\n        x_forwarded_for TEXT,\n        content_type TEXT,\n        response_code INTEGER,\n        response_message TEXT,\n        date TEXT,\n        server TEXT,\n        content_length INTEGER,\n        location TEXT,\n        response_preview TEXT,\n        response_checksum TEXT,\n        tab_id INTEGER,\n        window_id INTEGER,\n        request_headers TEXT,\n        response_headers TEXT\n      );\n    "

/-- The `insertSQL` template literal of `createSQLiteDatabase` for one
record, verbatim (single quotes written as \x27): quoted strings for text
columns, `jsNumOrNull`/`jsIntOrNull` for the five numeric columns. -/
def insertStatement (r : CompleteRecord) : String :=
  "\n        INSERT INTO network_requests (\n          timestamp, method, protocol, port, url, filename, domain,\n          user_agent, referer, origin, cookie, vary, x_forwarded_for,\n          content_type, response_code, response_message, date, server,\n          content_length, location, response_preview, response_checksum,\n          tab_id, window_id, request_headers, response_headers\n        ) VALUES (\n          \x27"
    ++ r.timestamp ++ "\x27, \x27" ++ r.method ++ "\x27, \x27" ++ r.protocol
    ++ "\x27, " ++ jsNumOrNull r.port ++ ",\n          \x27"
    ++ r.url ++ "\x27, \x27" ++ r.filename ++ "\x27, \x27" ++ r.domain
    ++ "\x27,\n          \x27"
    ++ jsOrStr r.user_agent "" ++ "\x27, \x27" ++ jsOrStr r.referer ""
    ++ "\x27, \x27" ++ jsOrStr r.origin "" ++ "\x27,\n          \x27"
    ++ jsOrStr r.cookie "" ++ "\x27, \x27" ++ (r.vary.getD "")
    ++ "\x27, \x27" ++ jsOrStr r.x_forwarded_for "" ++ "\x27,\n          \x27"
    ++ (r.content_type.getD "") ++ "\x27, " ++ jsNumOrNull r.response_code
    ++ ", \x27" ++ (r.response_message.getD "") ++ "\x27,\n          \x27"
    ++ (r.date.getD "") ++ "\x27, \x27" ++ (r.server.getD "")
    ++ "\x27, " ++ jsNumOrNull r.content_length ++ ",\n          \x27"
    ++ (r.location.getD "") ++ "\x27, \x27" ++ (r.response_preview.getD "")
    ++ "\x27, \x27" ++ (r.response_checksum.getD "") ++ "\x27,\n          "
    ++ jsIntOrNull r.tab_id ++ ", " ++ jsNumOrNull r.window_id ++ ",\n          \x27"
    ++ jsOrStr r.request_headers "" ++ "\x27, \x27" ++ (r.response_headers.getD "")
    ++ "\x27\n        );\n      "

/-- `createSQLiteDatabase(data)`: the fixed literal header, the CREATE TABLE
statement, then one INSERT statement per record. -/
def createSQLiteDatabase (data : List CompleteRecord) : String :=
  "SQLite format 3\x00" ++ createTableSQL ++ String.join (data.map insertStatement)

/-- `(List.lookup k l).getD 0`: the count a JavaScript count object reports
for key `k`. -/
def countOf {K : Type} [DecidableEq K] [BEq K] (l : List (K × Nat)) (k : K) : Nat :=
  (List.lookup k l).getD 0

/-- A concrete finalized record used as a test vector: phase-2 data present,
content type present but empty, content length present and zero. -/
def cRecA : CompleteRecord :=
  { method := "GET", protocol := "https", port := some 443,
    url := "https://example.com/a", filename := "a", domain := "example.com",
    user_agent := "UA1", referer := "", origin := "", cookie := "",
    vary := some "", x_forwarded_for := "",
    content_type := some "", response_code := some 200,
    response_message := some "OK", date := some "", server := some "srv",
    content_length := some 0, location := some "", response_preview := none,
    response_checksum := none, tab_id := 5, window_id := some 1,
    request_headers := "[]", response_headers := some "[]", timestamp := "T1" }

/-- A concrete phase-2 bundle used as a test vector. -/
def cResp : ResponseData :=
  { response_code := 200, response_message := "HTTP/1.1 200 OK",
    content_type := "text/html", content_length := 10, server := "srv",
    date := "D", location := "", vary := "", response_headers := "[]" }

/-- A concrete pending record used as a test vector. -/
def cPendR : PendingRecord :=
  { method := "GET", protocol := "https", port := some 443,
    url := "https://example.com/a", filename := "a", domain := "example.com",
    tab_id := 3, window_id := some 1, request_headers := "[]",
    timestamp := "T0", resp := some cResp }

/-- A monitor state whose domain filter excludes `example.com`. -/
def cStateExcl : MonitorState := ⟨true, ["example.com"], [], [], []⟩

/-- A full lifecycle for key `r2` whose phase-1 URL resolves to the excluded
domain `example.com`. -/
def cEvsExcl : List Event :=
  [.phase1 "r2" "https://example.com/b" "GET" 3 0 (some 1) [] "T1",
   .phase2 "r2" (some 200) "HTTP/1.1 200 OK" [],
   .phase3 "r2" []]

/-- A monitor state with one live pending record under key `r1`. -/
def cStatePend : MonitorState := ⟨true, [], [("r1", cPendR)], [], []⟩

/-- A monitor state with a pending record under key `1` (timestamp `T0`) and
an empty domain filter. -/
def c3State : MonitorState := ⟨true, [], [("1", cPendR)], [], []⟩

/-- A duplicate phase-1 event for the already-pending key `1`, arriving at
the later timestamp `T9`. -/
def c3Ev : Event := .phase1 "1" "https://example.com/x" "GET" 5 0 (some 2) [] "T9"

/-- Number of (non-overlapping) occurrences of the token `NULL` in a
character list; used to locate NULL sentinels in a rendered SQL script. -/
def countNULL : List Char → Nat
  | 'N' :: 'U' :: 'L' :: 'L' :: rest => countNULL rest + 1
  | _ :: rest => countNULL rest
  | [] => 0

theorem lookup_setKV_self (l : List (String × PendingRecord)) (k : String) (v : PendingRecord) :
    List.lookup k (setKV l k v) = some v := by
  induction l with
  | nil => simp [setKV, List.lookup]
  | cons p rest ih =>
    obtain ⟨k₀, v₀⟩ := p
    by_cases h : k₀ = k
    · subst h; simp [setKV, List.lookup]
    · have h' : (k == k₀) = false := by
        simp only [beq_eq_false_iff_ne]; exact fun hh => h hh.symm
      simp [setKV, h, List.lookup, h', ih]

theorem lookup_setKV_ne (l : List (String × PendingRecord)) (k k₀ : String)
    (v : PendingRecord) (hk : k ≠ k₀) :
    List.lookup k (setKV l k₀ v) = List.lookup k l := by
  have h' : (k == k₀) = false := by simp only [beq_eq_false_iff_ne]; exact hk
  induction l with
  | nil => simp [setKV, List.lookup, h']
  | cons p rest ih =>
    obtain ⟨k₁, v₁⟩ := p
    by_cases h : k₁ = k₀
    · subst h; simp [setKV, List.lookup, h']
    · simp [setKV, h, List.lookup, ih]

theorem lookup_removeKV_self (l : List (String × PendingRecord)) (k : String) :
    List.lookup k (removeKV l k) = none := by
  induction l with
  | nil => simp [removeKV, List.lookup]
  | cons p rest ih =>
    obtain ⟨k₁, v₁⟩ := p
    by_cases h : k₁ = k
    · subst h; simpa [removeKV, List.lookup] using ih
    · have h' : (k == k₁) = false := by
        simp only [beq_eq_false_iff_ne]; exact fun hh => h hh.symm
      simpa [removeKV, h, List.lookup, h'] using ih

theorem lookup_removeKV_ne (l : List (String × PendingRecord)) (k k₀ : String) (hk : k ≠ k₀) :
    List.lookup k (removeKV l k₀) = List.lookup k l := by
  induction l with
  | nil => simp [removeKV, List.lookup]
  | cons p rest ih =>
    obtain ⟨k₁, v₁⟩ := p
    by_cases h : k₁ = k₀
    · subst h
      have h' : (k == k₁) = false := by simp only [beq_eq_false_iff_ne]; exact hk
      simpa [removeKV, List.lookup, h'] using ih
    · have hkeep : (k₁ != k₀) = true := by simpa [bne_iff_ne] using h
      cases hkk : k == k₁ with
      | true => simp [removeKV, List.lookup, hkeep, hkk]
      | false => simpa [removeKV, List.lookup, hkeep, hkk] using ih

theorem removeKV_of_lookup_none (l : List (String × PendingRecord)) (k : String)
    (h : List.lookup k l = none) : removeKV l k = l := by
  induction l with
  | nil => simp [removeKV]
  | cons p rest ih =>
    obtain ⟨k₁, v₁⟩ := p
    by_cases hk : k == k₁
    · simp [List.lookup, hk] at h
    · simp only [List.lookup, hk] at h
      have hk' : (k₁ != k) = true := by
        simp only [bne_iff_ne]
        intro hh
        exact hk (by simp [hh])
      have hrest := ih h
      simp only [removeKV] at hrest ⊢
      simp [hk', hrest]

theorem step_disabledDomains (s : MonitorState) (ev : Event) :
    (step s ev).disabledDomains = s.disabledDomains := by
  cases ev with
  | phase1 rid url method tabId frameId wid reqHeaders now =>
    simp only [step, handleRequest]
    split
    · rfl
    · split <;> rfl
  | phase2 rid sc sl rhs =>
    simp only [step, handleResponse]
    split
    · rfl
    · split <;> rfl
  | phase3 rid reqHeaders =>
    simp only [step, handleCompleted]
    split
    · rfl
    · split <;> rfl

theorem step_isMonitoring (s : MonitorState) (ev : Event) :
    (step s ev).isMonitoring = s.isMonitoring := by
  cases ev with
  | phase1 rid url method tabId frameId wid reqHeaders now =>
    simp only [step, handleRequest]
    split
    · rfl
    · split <;> rfl
  | phase2 rid sc sl rhs =>
    simp only [step, handleResponse]
    split
    · rfl
    · split <;> rfl
  | phase3 rid reqHeaders =>
    simp only [step, handleCompleted]
    split
    · rfl
    · split <;> rfl

theorem step_noop (s : MonitorState) (ev : Event)
    (hp : List.lookup ev.key s.pending = none)
    (hx : ev.excludedAtB s.disabledDomains = true) :
    step s ev = s := by
  obtain ⟨mon, dd, pend, recs, bak⟩ := s
  cases ev with
  | phase1 rid url method tabId frameId wid reqHeaders now =>
    have hx' : extractDomain url ∈ dd := by simpa [Event.excludedAtB] using hx
    cases mon <;> simp [step, handleRequest, hx']
  | phase2 rid sc sl rhs =>
    simp only [Event.key] at hp
    cases mon <;> simp [step, handleResponse, hp]
  | phase3 rid reqHeaders =>
    simp only [Event.key] at hp
    cases mon <;> simp [step, handleCompleted, hp, removeKV_of_lookup_none _ _ hp]

theorem lookup_step_ne (s : MonitorState) (ev : Event) (k : String) (hk : ev.key ≠ k) :
    List.lookup k (step s ev).pending = List.lookup k s.pending := by
  cases ev with
  | phase1 rid url method tabId frameId wid reqHeaders now =>
    have hk' : k ≠ rid := fun h => hk (by simp [Event.key, h])
    simp only [step, handleRequest]
    split
    · rfl
    · split
      · rfl
      · simp [lookup_setKV_ne _ _ _ _ hk']
  | phase2 rid sc sl rhs =>
    have hk' : k ≠ rid := fun h => hk (by simp [Event.key, h])
    simp only [step, handleResponse]
    split
    · rfl
    · split
      · simp [lookup_setKV_ne _ _ _ _ hk']
      · rfl
  | phase3 rid reqHeaders =>
    have hk' : k ≠ rid := fun h => hk (by simp [Event.key, h])
    simp only [step, handleCompleted]
    split
    · rfl
    · split
      · simp [lookup_removeKV_ne _ _ _ hk']
      · simp [lookup_removeKV_ne _ _ _ hk']

theorem run_cons (ev : Event) (evs : List Event) (s : MonitorState) :
    run (ev :: evs) s = run evs (step s ev) := rfl

/-- C1: for every correlation key whose phase-1 URL resolves to a domain in
the DomainFilter's excluded set at phase-1 time, no pending record is ever
created, phase-2/phase-3 events with that key are no-ops, and no finalized
record for that key is ever written: processing the trace is identical to
processing the trace with every event of that key removed, the key is never
in the transient store (at the end and after every prefix), so nothing it
could finalize ever reaches the record store.  Phase events never mutate the
domain filter (`step_disabledDomains`), so exclusion relative to the starting
state is exclusion at phase-1 time. -/
theorem excludedDomain_key_is_inert (evs : List Event) (k : String) (s : MonitorState)
    (hp : List.lookup k s.pending = none)
    (hexc : ∀ ev ∈ evs, ev.key = k → ev.excludedAtB s.disabledDomains = true) :
    run evs s = run (evs.filter (fun ev => ev.key != k)) s ∧
    List.lookup k (run evs s).pending = none ∧
    (∀ l₁ l₂, evs = l₁ ++ l₂ → List.lookup k (run l₁ s).pending = none) := by
  induction evs generalizing s with
  | nil =>
    refine ⟨rfl, hp, ?_⟩
    intro l₁ l₂ h
    have h1 : l₁ = [] := (List.append_eq_nil.mp h.symm).1
    subst h1
    simpa [run] using hp
  | cons ev rest ih =>
    by_cases hk : ev.key = k
    · have hx := hexc ev (by simp) hk
      have hs : step s ev = s := step_noop s ev (by rw [hk]; exact hp) hx
      have hexc₁ : ∀ e ∈ rest, e.key = k → e.excludedAtB s.disabledDomains = true :=
        fun e he hke => hexc e (by simp [he]) hke
      obtain ⟨ih1, ih2, ih3⟩ := ih s hp hexc₁
      have hbne : (ev.key != k) = false := by simp [hk]
      have hfilter : (ev :: rest).filter (fun e => e.key != k)
          = rest.filter (fun e => e.key != k) := by
        simp [List.filter_cons, hbne]
      refine ⟨?_, ?_, ?_⟩
      · rw [run_cons, hs, hfilter]; exact ih1
      · rw [run_cons, hs]; exact ih2
      · intro l₁ l₂ h
        cases l₁ with
        | nil => simpa [run] using hp
        | cons e t =>
          rw [List.cons_append] at h
          injection h with he ht
          subst he
          rw [run_cons, hs]
          exact ih3 t l₂ ht
    · have hp₁ : List.lookup k (step s ev).pending = none := by
        rw [lookup_step_ne s ev k hk]; exact hp
      have hexc₁ : ∀ e ∈ rest, e.key = k → e.excludedAtB (step s ev).disabledDomains = true := by
        intro e he hke
        rw [step_disabledDomains]
        exact hexc e (by simp [he]) hke
      obtain ⟨ih1, ih2, ih3⟩ := ih (step s ev) hp₁ hexc₁
      have hbne : (ev.key != k) = true := by simpa [bne_iff_ne] using hk
      have hfilter : (ev :: rest).filter (fun e => e.key != k)
          = ev :: rest.filter (fun e => e.key != k) := by
        simp [List.filter_cons, hbne]
      refine ⟨?_, ?_, ?_⟩
      · rw [run_cons, hfilter, run_cons]; exact ih1
      · rw [run_cons]; exact ih2
      · intro l₁ l₂ h
        cases l₁ with
        | nil => simpa [run] using hp
        | cons e t =>
          rw [List.cons_append] at h
          injection h with he ht
          subst he
          rw [run_cons]
          exact ih3 t l₂ ht

/-- C1 witness: the key `r2`, whose phase-1 URL `https://example.com/b`
resolves to the excluded domain `example.com`, is inert for a concrete
phase1/phase2/phase3 trace. -/
theorem excludedDomain_key_is_inert_witness :
    run cEvsExcl cStateExcl = run (cEvsExcl.filter (fun ev => ev.key != "r2")) cStateExcl ∧
    List.lookup "r2" (run cEvsExcl cStateExcl).pending = none ∧
    (∀ l₁ l₂, cEvsExcl = l₁ ++ l₂ →
      List.lookup "r2" (run l₁ cStateExcl).pending = none) :=
  excludedDomain_key_is_inert cEvsExcl "r2" cStateExcl (by decide) (by decide)

/-- C2: a phase-3 event for a key with a live pending record appends exactly
one finalized record to the record store and removes the pending entry, so a
second phase-3 event for the same key finds no pending record and leaves the
whole state unchanged (no second finalized record, no error). -/
theorem phase3_finalizes_exactly_once (s : MonitorState) (k : String) (rd : PendingRecord)
    (hs₁ hs₂ : List (Option Header))
    (hmon : s.isMonitoring = true) (hp : List.lookup k s.pending = some rd) :
    (step s (.phase3 k hs₁)).records = s.records ++ [mkCompleteData rd hs₁ none] ∧
    List.lookup k (step s (.phase3 k hs₁)).pending = none ∧
    step (step s (.phase3 k hs₁)) (.phase3 k hs₂) = step s (.phase3 k hs₁) := by
  have hstep : step s (.phase3 k hs₁) =
      { s with records := s.records ++ [mkCompleteData rd hs₁ none]
               backup := saveToLocalStorageBackup s.backup (mkCompleteData rd hs₁ none)
               pending := removeKV s.pending k } := by
    simp [step, handleCompleted, hmon, hp, getResponseBody]
  refine ⟨?_, ?_, ?_⟩
  · rw [hstep]
  · rw [hstep]
    exact lookup_removeKV_self s.pending k
  · have hp₂ : List.lookup (Event.phase3 k hs₂).key (step s (.phase3 k hs₁)).pending = none := by
      simp only [Event.key]
      rw [hstep]
      exact lookup_removeKV_self s.pending k
    exact step_noop _ _ hp₂ rfl

/-- C2 witness: finalizing the pending key `r1` of a concrete state, then
replaying phase 3 for the same key. -/
theorem phase3_finalizes_exactly_once_witness :
    (step cStatePend (.phase3 "r1" [some ⟨"User-Agent", "UA1"⟩])).records
        = cStatePend.records ++ [mkCompleteData cPendR [some ⟨"User-Agent", "UA1"⟩] none] ∧
    List.lookup "r1" (step cStatePend (.phase3 "r1" [some ⟨"User-Agent", "UA1"⟩])).pending = none ∧
    step (step cStatePend (.phase3 "r1" [some ⟨"User-Agent", "UA1"⟩])) (.phase3 "r1" [])
        = step cStatePend (.phase3 "r1" [some ⟨"User-Agent", "UA1"⟩]) :=
  phase3_finalizes_exactly_once cStatePend "r1" cPendR
    [some ⟨"User-Agent", "UA1"⟩] [] rfl (by decide)

/-- C3 counterexample: a duplicate phase-1 event for the already-pending key
`1` does not leave the existing pending record unchanged — the stored record
after the event differs from the one that was pending before it
(`storeRequestData` is an unconditional `chrome.storage.local.set`). -/
theorem duplicate_phase1_not_frame_preserving :
    List.lookup "1" (step c3State c3Ev).pending ≠ some cPendR := by decide

/-- C3 (amended): a duplicate phase-1 event for an already-pending key (with
monitoring on and the URL's domain not excluded) overwrites the pending
record with the freshly derived request data. -/
theorem duplicate_phase1_overwrites (s : MonitorState) (rid url method : String)
    (tabId frameId : Int) (wid : Option Int) (reqHeaders : List (Option Header)) (now : String)
    (hmon : s.isMonitoring = true)
    (hdom : s.disabledDomains.contains (extractDomain url) = false) :
    List.lookup rid (step s (.phase1 rid url method tabId frameId wid reqHeaders now)).pending
      = some (mkRequestData url method tabId frameId wid reqHeaders now) := by
  simp only [step, handleRequest, hmon, Bool.not_true, Bool.false_eq_true, if_false, hdom]
  exact lookup_setKV_self s.pending rid _

/-- C3 amended-claim witness: the duplicate phase-1 event on the concrete
pending state replaces the old record (timestamp `T0`) with the freshly
derived one (timestamp `T9`). -/
theorem duplicate_phase1_overwrites_witness :
    List.lookup "1" (step c3State c3Ev).pending
      = some (mkRequestData "https://example.com/x" "GET" 5 0 (some 2) [] "T9") :=
  duplicate_phase1_overwrites c3State "1" "https://example.com/x" "GET" 5 0 (some 2) [] "T9"
    rfl (by decide)

theorem saveBackup_length_le (backup : List CompleteRecord) (r : CompleteRecord) :
    (saveToLocalStorageBackup backup r).length ≤ 1000 := by
  simp only [saveToLocalStorageBackup]
  by_cases h : (backup ++ [r]).length > 1000
  · simp only [h, if_true, List.length_drop]
    omega
  · simp only [h, if_false]
    omega

theorem foldl_saveBackup_le (rs : List CompleteRecord) :
    ∀ start : List CompleteRecord, start.length ≤ 1000 →
      (rs.foldl saveToLocalStorageBackup start).length ≤ 1000 := by
  induction rs with
  | nil => intro start h; simpa using h
  | cons r rest ih =>
    intro start h
    rw [List.foldl_cons]
    exact ih _ (saveBackup_length_le start r)

theorem saveBackup_evicts (backup : List CompleteRecord) (r : CompleteRecord)
    (h : backup.length = 1000) :
    saveToLocalStorageBackup backup r = backup.tail ++ [r] := by
  cases backup with
  | nil => simp at h
  | cons a t =>
    have hlen : ((a :: t) ++ [r]).length = 1001 := by simp_all
    simp only [saveToLocalStorageBackup, hlen]
    norm_num

/-- C6: the backup ring never exceeds the fixed capacity 1000: a push onto a
ring already holding 1000 records evicts the oldest (front) record and keeps
the length at exactly 1000, a single push always lands at or below the bound,
and along any sequence of pushes from a within-bound start the bound is an
invariant. -/
theorem backupRing_capacity_invariant (backup start : List CompleteRecord)
    (r : CompleteRecord) (rs : List CompleteRecord) :
    (saveToLocalStorageBackup backup r).length ≤ 1000 ∧
    (backup.length = 1000 →
      saveToLocalStorageBackup backup r = backup.tail ++ [r] ∧
      (saveToLocalStorageBackup backup r).length = 1000) ∧
    (start.length ≤ 1000 → (rs.foldl saveToLocalStorageBackup start).length ≤ 1000) := by
  refine ⟨saveBackup_length_le backup r, ?_, fun h => foldl_saveBackup_le rs start h⟩
  intro h
  refine ⟨saveBackup_evicts backup r h, ?_⟩
  rw [saveBackup_evicts backup r h]
  cases backup with
  | nil => simp at h
  | cons a t => simp_all

/-- C6 witness: pushing one record onto a ring of exactly 1000 records. -/
theorem backupRing_capacity_invariant_witness :
    saveToLocalStorageBackup (List.replicate 1000 cRecA) cRecA
        = (List.replicate 1000 cRecA).tail ++ [cRecA] ∧
    (saveToLocalStorageBackup (List.replicate 1000 cRecA) cRecA).length = 1000 ∧
    ([cRecA].foldl saveToLocalStorageBackup []).length ≤ 1000 :=
  ⟨((backupRing_capacity_invariant (List.replicate 1000 cRecA) [] cRecA [cRecA]).2.1
      (by rw [List.length_replicate])).1,
   ((backupRing_capacity_invariant (List.replicate 1000 cRecA) [] cRecA [cRecA]).2.1
      (by rw [List.length_replicate])).2,
   (backupRing_capacity_invariant (List.replicate 1000 cRecA) [] cRecA [cRecA]).2.2
      (by simp)⟩

/-- C7 (amended): the SQL-script export of the empty record set is exactly
the fixed literal header (`SQLite format 3` plus a NUL byte) followed by the
one CREATE TABLE IF NOT EXISTS statement and nothing else (zero INSERT
statements); the CREATE TABLE statement declares exactly the 27 enumerated
columns — `id` plus the 26 record fields — in source order. -/
theorem sql_export_empty_script :
    createSQLiteDatabase [] = "SQLite format 3\x00" ++ createTableSQL ∧
    createTableSQL = mkCreateTableSQL sqlTableColumns ∧
    sqlTableColumns.map Prod.fst
      = ["id", "timestamp", "method", "protocol", "port", "url", "filename",
         "domain", "user_agent", "referer", "origin", "cookie", "vary",
         "x_forwarded_for", "content_type", "response_code", "response_message",
         "date", "server", "content_length", "location", "response_preview",
         "response_checksum", "tab_id", "window_id", "request_headers",
         "response_headers"] ∧
    sqlTableColumns.length = 27 :=
  ⟨by decide, by decide, by decide, by decide⟩

/-- C7 counterexample: the export of the empty record set is indeed header
plus CREATE TABLE with zero INSERTs, but the CREATE TABLE statement declares
27 columns (`id` plus the 26 record fields), not 26 as the claim counts. -/
theorem sql_export_empty_cols_not_26 :
    createSQLiteDatabase [] = "SQLite format 3\x00" ++ mkCreateTableSQL sqlTableColumns ∧
    sqlTableColumns.length ≠ 26 :=
  ⟨by decide, by decide⟩

/-- C5 counterexample: the record `cRecA` has `content_length` present and
equal to 0 while every other numeric field is present and nonzero, yet its
rendered INSERT statement contains exactly one NULL sentinel:
`${record.content_length || 'NULL'}` prints NULL for a present zero, so NULL
does not appear only for absent numeric fields. -/
theorem sql_numeric_zero_renders_null :
    cRecA.content_length = some 0 ∧
    jsNumOrNull cRecA.content_length = "NULL" ∧
    countNULL (insertStatement cRecA).data = 1 := by decide

/-- C5 (amended): in the SQL-script export each numeric column (port,
response_code, content_length, tab_id, window_id) is rendered by the
`x || 'NULL'` interpolation: a bare number when the field is present and
nonzero, and the NULL sentinel when the field is absent or equal to zero. -/
theorem sql_numeric_render (o : Option Int) (n m : Int) :
    (o = some n → n ≠ 0 → jsNumOrNull o = toString n) ∧
    (o = none → jsNumOrNull o = "NULL") ∧
    (o = some 0 → jsNumOrNull o = "NULL") ∧
    (m ≠ 0 → jsIntOrNull m = toString m) ∧
    jsIntOrNull 0 = "NULL" := by
  refine ⟨?_, ?_, ?_, ?_, rfl⟩
  · rintro rfl hn
    simp [jsNumOrNull, hn]
  · rintro rfl
    rfl
  · rintro rfl
    rfl
  · intro hm
    simp [jsIntOrNull, hm]

/-- C5 amended-claim witness: the four rendering cases at concrete numbers. -/
theorem sql_numeric_render_witness :
    jsNumOrNull (some 7) = "7" ∧ jsNumOrNull none = "NULL" ∧
    jsNumOrNull (some 0) = "NULL" ∧ jsIntOrNull (-1) = "-1" :=
  ⟨(sql_numeric_render (some 7) 7 (-1)).1 rfl (by decide),
   (sql_numeric_render none 7 (-1)).2.1 rfl,
   (sql_numeric_render (some 0) 7 (-1)).2.2.1 rfl,
   (sql_numeric_render (some 7) 7 (-1)).2.2.2.1 (by decide)⟩

theorem jsOrStr_empty_default (s : String) : jsOrStr s "" = s := by
  unfold jsOrStr
  split <;> simp_all

/-- C8: header lookup is case-insensitive in the header name — lookups with
names equal up to ASCII case agree — and when no header entry carries the
requested name (up to case) the resolved value is the empty string, a
present string, never a missing field. -/
theorem getHeaderValue_caseInsensitive_total (headers : List (Option Header)) (n₁ n₂ : String) :
    (lowerStr n₁ = lowerStr n₂ → getHeaderValue headers n₁ = getHeaderValue headers n₂) ∧
    ((∀ oh ∈ headers, ∀ h : Header, oh = some h → lowerStr h.name ≠ lowerStr n₁) →
      getHeaderValue headers n₁ = "") := by
  constructor
  · intro h
    simp only [getHeaderValue, h]
  · intro habs
    have hfind : headers.find? (headerMatches (lowerStr n₁)) = none := by
      rw [List.find?_eq_none]
      intro oh hmem hp
      cases oh with
      | none => simp [headerMatches] at hp
      | some hh =>
        simp only [headerMatches, Bool.and_eq_true, beq_iff_eq] at hp
        exact absurd hp.2 (habs (some hh) hmem hh rfl)
    simp [getHeaderValue, hfind]

/-- C8 witness: differently-cased lookups agree on a concrete header list,
and a missing name resolves to the empty string. -/
theorem getHeaderValue_caseInsensitive_total_witness :
    getHeaderValue [some ⟨"Content-Type", "text/html"⟩] "content-type"
      = getHeaderValue [some ⟨"Content-Type", "text/html"⟩] "CONTENT-TYPE" ∧
    getHeaderValue [some ⟨"Content-Type", "text/html"⟩] "server" = "" :=
  ⟨(getHeaderValue_caseInsensitive_total [some ⟨"Content-Type", "text/html"⟩]
      "content-type" "CONTENT-TYPE").1 (by decide),
   (getHeaderValue_caseInsensitive_total [some ⟨"Content-Type", "text/html"⟩]
      "server" "x").2 (by decide)⟩

/-- C9: phase-1 URL field derivation is total and never propagates a parse
failure: when the URL is unparsable, protocol and domain resolve to the
sentinel `unknown`, the port to absent and the filename to the empty string;
when it parses, the port is the explicit port when one is present (else 443
for https and 80 otherwise), the filename is the last `/`-separated segment
of the path, and protocol/domain come from the parsed scheme and hostname. -/
theorem url_derivation_total (url : String) :
    (parseURL url = none →
      extractProtocol url = "unknown" ∧ extractDomain url = "unknown" ∧
      extractPort url = none ∧ extractFilename url = "") ∧
    (∀ u, parseURL url = some u →
      extractPort url = some (if u.port ≠ "" then (parseIntJS u.port).getD 0
                              else if u.protocol = "https:" then 443 else 80) ∧
      extractFilename url = String.mk ((splitOnChar '/' u.pathname.data).getLastD []) ∧
      extractProtocol url = String.mk (removeFirst ':' u.protocol.data) ∧
      extractDomain url = u.hostname) := by
  constructor
  · intro h
    simp [extractProtocol, extractDomain, extractPort, extractFilename, h]
  · intro u h
    refine ⟨?_, ?_, ?_, ?_⟩
    · simp [extractPort, h]
    · simp [extractFilename, h, jsOrStr_empty_default]
    · simp [extractProtocol, h]
    · simp [extractDomain, h]

/-- C9 witness: the sentinel branch on an unparsable input and the derived
values on a parsable one. -/
theorem url_derivation_total_witness :
    (extractProtocol "::nope" = "unknown" ∧ extractDomain "::nope" = "unknown" ∧
     extractPort "::nope" = none ∧ extractFilename "::nope" = "") ∧
    (extractPort "https://example.com/a.js" = some 443 ∧
     extractFilename "https://example.com/a.js" = "a.js" ∧
     extractProtocol "https://example.com/a.js" = "https" ∧
     extractDomain "https://example.com/a.js" = "example.com") :=
  ⟨(url_derivation_total "::nope").1 (by decide),
   (url_derivation_total "https://example.com/a.js").2
     ⟨"https:", "example.com", "", "/a.js"⟩ (by decide)⟩

/-- C10: the CSV rendering of the empty record list is the empty string (no
header row is emitted), and any field value that is falsy (absent/null,
zero, or the empty string) renders as the quoted empty string, so a present
zero is indistinguishable from an absent field in the CSV output. -/
theorem csv_empty_and_falsy_fields (r : CompleteRecord) (h : String)
    (hf : jsFalsy (getField r h) = true) :
    convertToCSV [] = "" ∧
    csvCell (getField r h) = "\x22\x22" ∧
    csvCell (JSVal.num 0) = csvCell JSVal.absent := by
  refine ⟨rfl, ?_, rfl⟩
  cases hv : getField r h with
  | str s =>
    rw [hv] at hf
    simp only [jsFalsy, beq_iff_eq] at hf
    simp [csvCell, jsValOrEmpty, hf]
  | num n =>
    rw [hv] at hf
    simp only [jsFalsy, beq_iff_eq] at hf
    simp [csvCell, jsValOrEmpty, hf]
  | absent => simp [csvCell, jsValOrEmpty]

/-- C10 witness: the present-but-zero `content_length` of `cRecA` renders as
the quoted empty string. -/
theorem csv_empty_and_falsy_fields_witness :
    convertToCSV [] = "" ∧
    csvCell (getField cRecA "content_length") = "\x22\x22" ∧
    csvCell (JSVal.num 0) = csvCell JSVal.absent :=
  csv_empty_and_falsy_fields cRecA "content_length" (by decide)

theorem countOf_bump {K : Type} [DecidableEq K] [BEq K] [LawfulBEq K]
    (l : List (K × Nat)) (k k' : K) :
    countOf (bump l k) k' = countOf l k' + (if k' = k then 1 else 0) := by
  induction l with
  | nil =>
    by_cases h : k' = k
    · subst h
      simp [bump, countOf, List.lookup]
    · have h' : (k' == k) = false := by simpa using h
      simp [bump, countOf, List.lookup, h', h]
  | cons p rest ih =>
    obtain ⟨k₀, n⟩ := p
    by_cases h0 : k₀ = k
    · subst h0
      by_cases h : k' = k₀
      · subst h
        simp [bump, countOf, List.lookup]
      · have h' : (k' == k₀) = false := by simpa using h
        simp [bump, countOf, List.lookup, h', h]
    · have h0' : ¬(k₀ = k) := h0
      by_cases h : k' = k₀
      · subst h
        have hne : k' ≠ k := fun hh => h0 (hh ▸ rfl)
        simp [bump, h0', countOf, List.lookup, hne]
      · have h' : (k' == k₀) = false := by simpa using h
        have := ih
        simp only [bump, h0', if_false, countOf, List.lookup, h'] at this ⊢
        simpa [countOf, List.lookup, h'] using this

theorem summaryStep_methods (s : Summary) (r : CompleteRecord) :
    (summaryStep s r).methods = bump s.methods r.method := by
  cases h : ctKey r <;> simp [summaryStep, h]

theorem summaryStep_status_codes (s : Summary) (r : CompleteRecord) :
    (summaryStep s r).status_codes = bump s.status_codes r.response_code := by
  cases h : ctKey r <;> simp [summaryStep, h]

theorem summaryStep_protocols (s : Summary) (r : CompleteRecord) :
    (summaryStep s r).protocols = bump s.protocols r.protocol := by
  cases h : ctKey r <;> simp [summaryStep, h]

theorem summaryStep_content_types (s : Summary) (r : CompleteRecord) :
    (summaryStep s r).content_types
      = match ctKey r with
        | some t => bump s.content_types t
        | none => s.content_types := by
  cases h : ctKey r <;> simp [summaryStep, h]

theorem summaryStep_total_requests (s : Summary) (r : CompleteRecord) :
    (summaryStep s r).total_requests = s.total_requests := by
  cases h : ctKey r <;> simp [summaryStep, h]

theorem summaryStep_unique_domains (s : Summary) (r : CompleteRecord) :
    (summaryStep s r).unique_domains = s.unique_domains := by
  cases h : ctKey r <;> simp [summaryStep, h]

theorem foldl_summaryStep_total (data : List CompleteRecord) :
    ∀ acc : Summary, (data.foldl summaryStep acc).total_requests = acc.total_requests := by
  induction data with
  | nil => intro acc; rfl
  | cons r rest ih =>
    intro acc
    rw [List.foldl_cons, ih, summaryStep_total_requests]

theorem foldl_summaryStep_unique (data : List CompleteRecord) :
    ∀ acc : Summary, (data.foldl summaryStep acc).unique_domains = acc.unique_domains := by
  induction data with
  | nil => intro acc; rfl
  | cons r rest ih =>
    intro acc
    rw [List.foldl_cons, ih, summaryStep_unique_domains]

theorem foldl_summaryStep_methods (data : List CompleteRecord) :
    ∀ (acc : Summary) (m : String),
      countOf (data.foldl summaryStep acc).methods m
        = countOf acc.methods m + (data.filter (fun r => r.method == m)).length := by
  induction data with
  | nil => intro acc m; simp
  | cons r rest ih =>
    intro acc m
    rw [List.foldl_cons, ih (summaryStep acc r) m, summaryStep_methods, countOf_bump]
    by_cases h : m = r.method
    · have h' : (r.method == m) = true := by simpa using h.symm
      simp [List.filter_cons, h, h']
      omega
    · have h' : (r.method == m) = false := by
        simp only [beq_eq_false_iff_ne]
        exact fun hh => h hh.symm
      simp [List.filter_cons, h, h']

theorem foldl_summaryStep_status (data : List CompleteRecord) :
    ∀ (acc : Summary) (sc : Option Int),
      countOf (data.foldl summaryStep acc).status_codes sc
        = countOf acc.status_codes sc
            + (data.filter (fun r => r.response_code == sc)).length := by
  induction data with
  | nil => intro acc sc; simp
  | cons r rest ih =>
    intro acc sc
    rw [List.foldl_cons, ih (summaryStep acc r) sc, summaryStep_status_codes, countOf_bump]
    by_cases h : sc = r.response_code
    · have h' : (r.response_code == sc) = true := by simpa using h.symm
      simp [List.filter_cons, h, h']
      omega
    · have h' : (r.response_code == sc) = false := by
        simp only [beq_eq_false_iff_ne]
        exact fun hh => h hh.symm
      simp [List.filter_cons, h, h']

theorem foldl_summaryStep_protocols (data : List CompleteRecord) :
    ∀ (acc : Summary) (p : String),
      countOf (data.foldl summaryStep acc).protocols p
        = countOf acc.protocols p + (data.filter (fun r => r.protocol == p)).length := by
  induction data with
  | nil => intro acc p; simp
  | cons r rest ih =>
    intro acc p
    rw [List.foldl_cons, ih (summaryStep acc r) p, summaryStep_protocols, countOf_bump]
    by_cases h : p = r.protocol
    · have h' : (r.protocol == p) = true := by simpa using h.symm
      simp [List.filter_cons, h, h']
      omega
    · have h' : (r.protocol == p) = false := by
        simp only [beq_eq_false_iff_ne]
        exact fun hh => h hh.symm
      simp [List.filter_cons, h, h']

theorem foldl_summaryStep_content_types (data : List CompleteRecord) :
    ∀ (acc : Summary) (t : String),
      countOf (data.foldl summaryStep acc).content_types t
        = countOf acc.content_types t + (data.filter (fun r => ctKey r == some t)).length := by
  induction data with
  | nil => intro acc t; simp
  | cons r rest ih =>
    intro acc t
    rw [List.foldl_cons, ih (summaryStep acc r) t, summaryStep_content_types]
    cases hct : ctKey r with
    | some u =>
      rw [countOf_bump]
      by_cases h : t = u
      · subst h
        have h' : (ctKey r == some t) = true := by simp [hct]
        simp [List.filter_cons, h']
        omega
      · have h' : (ctKey r == some t) = false := by
          simp [hct]
          exact fun hh => h hh.symm
        simp [List.filter_cons, h, h']
    | none =>
      have h' : (ctKey r == some t) = false := by simp [hct]
      simp [List.filter_cons, h']

/-- C4 (amended): for every record set, `generateSummary` reports the input
length as the total request count, the number of distinct hostnames obtained
by re-parsing each record's URL (`unknown` when unparsable) as the domain
count, and per-key counts of records grouped by method, by response code
(records without phase-2 data all land under the absent key), by
content-type major type (the part before the first `;`, counting only
records whose content-type field is present and non-empty), and by protocol.
No total content length is part of the summary. -/
theorem generateSummary_characterization (data : List CompleteRecord)
    (m : String) (sc : Option Int) (t p : String) :
    (generateSummary data).total_requests = data.length ∧
    (generateSummary data).unique_domains
      = jsSetSize (data.map (fun r => extractDomain r.url)) ∧
    countOf (generateSummary data).methods m
      = (data.filter (fun r => r.method == m)).length ∧
    countOf (generateSummary data).status_codes sc
      = (data.filter (fun r => r.response_code == sc)).length ∧
    countOf (generateSummary data).content_types t
      = (data.filter (fun r => ctKey r == some t)).length ∧
    countOf (generateSummary data).protocols p
      = (data.filter (fun r => r.protocol == p)).length := by
  refine ⟨?_, ?_, ?_, ?_, ?_, ?_⟩
  · rw [generateSummary, foldl_summaryStep_total]
  · rw [generateSummary, foldl_summaryStep_unique]
  · rw [generateSummary, foldl_summaryStep_methods]
    simp [countOf, List.lookup]
  · rw [generateSummary, foldl_summaryStep_status]
    simp [countOf, List.lookup]
  · rw [generateSummary, foldl_summaryStep_content_types]
    simp [countOf, List.lookup]
  · rw [generateSummary, foldl_summaryStep_protocols]
    simp [countOf, List.lookup]

/-- C4 counterexample: the record `cRecA` has a present (empty-string)
content type, yet the summary of `[cRecA]` counts it in no content-type
group, and the summary's complete value — evaluated below — consists of
exactly the six fields total_requests, unique_domains, methods,
status_codes, content_types and protocols: no total content length is
computed anywhere. -/
theorem generateSummary_no_content_length_total :
    cRecA.content_type = some "" ∧
    cRecA.content_length = some 0 ∧
    generateSummary [cRecA]
      = { total_requests := 1, unique_domains := 1, methods := [("GET", 1)],
          status_codes := [(some 200, 1)], content_types := [],
          protocols := [("https", 1)] } := by decide
